import Mathlib

/-!
Shallow embedding of the jupyter_pytorch_dev repository: the quickstart
notebook cells of demo08_profiler.ipynb (NeuralNetwork model, train, test,
state-dict save/load, the recorded 5-epoch run), the model-layer walkthrough
of demo04_NeuralNetwork.ipynb (Flatten, Linear, ReLU, Sequential, Softmax),
the recorded profiler tables, and the two Dockerfiles.

Tensors are modelled as lists of rationals (floating point idealised as exact
arithmetic); the Softmax layer, which needs the exponential, is modelled over
the reals.  Stateful notebook code (device movement, training loop, no_grad)
is modelled by explicit state passing, with an event trace recording the
calls the loop makes, in order.
-/

namespace JupyterPytorchDev

/-! ## Tensors and layers (demo04_NeuralNetwork.ipynb, demo08_profiler.ipynb) -/

/-- A one-dimensional tensor: a list of (idealised) floats. -/
abbrev Tensor1 : Type := List ℚ

/-- A two-dimensional tensor: a list of rows. -/
abbrev Tensor2 : Type := List (List ℚ)

/-- Dot product of a weight row with an input vector. -/
def dot (w x : Tensor1) : ℚ := (List.zipWith (fun a b => a * b) w x).sum

/-- nn.Linear with stored weight matrix and bias: row o of the output is
the dot product of weight row o with the input, plus bias o. -/
def linear (weight : Tensor2) (bias : Tensor1) (x : Tensor1) : Tensor1 :=
  List.zipWith (fun wrow b => dot wrow x + b) weight bias

/-- nn.ReLU applied elementwise to a 1-D tensor. -/
def reluT (x : Tensor1) : Tensor1 := x.map (fun v => max v 0)

/-- nn.Flatten on a single image: the rows of the 2-D image are
concatenated into one contiguous vector. -/
def flattenImage (img : Tensor2) : Tensor1 := img.flatten

/-- nn.Flatten on a minibatch: the batch dimension (dim 0) is maintained
and each image is flattened. -/
def flattenBatch (batch : List Tensor2) : List Tensor1 := batch.map flattenImage

/-- nn.Sequential: the input is passed through all the modules in the
order they are listed. -/
def sequentialApply (modules : List (Tensor1 → Tensor1)) (x : Tensor1) : Tensor1 :=
  modules.foldl (fun acc m => m acc) x

/-- The parameters of the NeuralNetwork class: the three nn.Linear layers
of linear_relu_stack, at indices 0, 2 and 4 of the Sequential. -/
structure NeuralNetwork where
  w0 : Tensor2
  b0 : Tensor1
  w2 : Tensor2
  b2 : Tensor1
  w4 : Tensor2
  b4 : Tensor1

/-- The Sequential container built in NeuralNetwork.__init__:
Linear(28*28, 512), ReLU(), Linear(512, 512), ReLU(), Linear(512, 10). -/
def NeuralNetwork.linear_relu_stack (m : NeuralNetwork) : List (Tensor1 → Tensor1) :=
  [linear m.w0 m.b0, reluT, linear m.w2 m.b2, reluT, linear m.w4 m.b4]

/-- NeuralNetwork.forward: x = self.flatten(x); logits = self.linear_relu_stack(x);
return logits. -/
def NeuralNetwork.forward (m : NeuralNetwork) (x : Tensor2) : Tensor1 :=
  sequentialApply m.linear_relu_stack (flattenImage x)

/-- The model applied to a minibatch: forward on each image, batch
dimension maintained. -/
def forwardBatch (m : NeuralNetwork) (xs : List Tensor2) : List Tensor1 :=
  xs.map m.forward

/-- The well-formedness of the constructed parameters: nn.Linear(i, o)
stores an o-by-i weight matrix and an o bias vector. -/
def linearShape (weight : Tensor2) (bias : Tensor1) (i o : ℕ) : Prop :=
  weight.length = o ∧ (∀ row ∈ weight, row.length = i) ∧ bias.length = o

/-- Shapes of the three layers as constructed in NeuralNetwork.__init__. -/
def NeuralNetwork.WellFormed (m : NeuralNetwork) : Prop :=
  linearShape m.w0 m.b0 (28 * 28) 512 ∧
  linearShape m.w2 m.b2 512 512 ∧
  linearShape m.w4 m.b4 512 10

/-- tensor.argmax for a row of logits: the index of the first maximal
entry (0 on the empty row). -/
def argmaxAux : Tensor1 → ℕ → ℕ → ℚ → ℕ
  | [], _, best, _ => best
  | v :: rest, i, best, bestV =>
      if bestV < v then argmaxAux rest (i + 1) i v else argmaxAux rest (i + 1) best bestV

/-- pred.argmax(1) on one row of the prediction tensor. -/
def argmaxIdx : Tensor1 → ℕ
  | [] => 0
  | v :: rest => argmaxAux rest 1 0 v

/-- nn.Softmax(dim=1) on one row of logits: each logit is exponentiated
and normalised by the row sum of exponentials. -/
noncomputable def softmaxRow (x : List ℝ) : List ℝ :=
  x.map (fun v => Real.exp v / (x.map Real.exp).sum)

/-! ## Device selection and placement (demo04 cell 2, demo08 quickstart) -/

/-- The two devices the notebooks choose between. -/
inductive Device where
  | cuda
  | cpu
deriving DecidableEq

/-- device = "cuda" if torch.cuda.is_available() else "cpu". -/
def selectDevice (cudaAvailable : Bool) : Device :=
  if cudaAvailable then Device.cuda else Device.cpu

/-- A value tagged with the device it lives on. -/
structure Located (α : Type) where
  data : α
  device : Device

/-- tensor.to(device) / module.to(device): the value now lives on d. -/
def Located.to {α : Type} (t : Located α) (d : Device) : Located α :=
  { t with device := d }

/-! ## The train function (demo08_profiler.ipynb quickstart cells) -/

/-- One event of the training loop, tagged with the enumerate index of the
batch it belongs to.  Device payloads record where tensors were moved and
which devices took part in a model call. -/
inductive TrainEvent where
  | moveX (i : ℕ) (d : Device)
  | moveY (i : ℕ) (d : Device)
  | forwardCall (i : ℕ) (modelDev inputDev : Device)
  | lossCall (i : ℕ)
  | zeroGradCall (i : ℕ)
  | backwardCall (i : ℕ)
  | stepCall (i : ℕ)
  | printLine (i : ℕ)
deriving DecidableEq

/-- The framework operations train delegates to: the forward pass of the
model, the loss function, and the gradient computation of loss.backward(). -/
structure TrainKit (P G X Y L : Type) where
  modelF : P → X → L
  lossFn : L → Y → ℚ
  backward : P → G → ℚ → G

/-- The optimizer passed to train: optimizer.zero_grad() and
optimizer.step(). -/
structure Optimizer (P G : Type) where
  zeroGrad : G → G
  step : P → G → P

/-- The state threaded through the training loop: the model (parameters
located on a device), the gradient buffer, and the events so far. -/
structure TrainState (P G : Type) where
  model : Located P
  grad : G
  events : List TrainEvent

/-- The body of train, line by line.  For batch, (X, y) in
enumerate(dataloader): X, y = X.to(device), y.to(device); pred = model(X);
loss = loss_fn(pred, y); optimizer.zero_grad(); loss.backward();
optimizer.step(); if batch % 100 == 0: print(...). -/
def trainLoop {P G X Y L : Type} (device : Device) (kit : TrainKit P G X Y L)
    (optimizer : Optimizer P G) :
    List (Located X × Located Y) → ℕ → TrainState P G → TrainState P G
  | [], _, s => s
  | (X, y) :: rest, batch, s =>
      let X := X.to device
      let y := y.to device
      let pred := kit.modelF s.model.data X.data
      let loss := kit.lossFn pred y.data
      let g1 := optimizer.zeroGrad s.grad
      let g2 := kit.backward s.model.data g1 loss
      let p2 := optimizer.step s.model.data g2
      let printed := if batch % 100 = 0 then [TrainEvent.printLine batch] else []
      trainLoop device kit optimizer rest (batch + 1)
        { model := { s.model with data := p2 }
          grad := g2
          events := s.events ++
            [TrainEvent.moveX batch device, TrainEvent.moveY batch device,
             TrainEvent.forwardCall batch s.model.device X.device,
             TrainEvent.lossCall batch,
             TrainEvent.zeroGradCall batch, TrainEvent.backwardCall batch,
             TrainEvent.stepCall batch] ++ printed }

/-- def train(dataloader, model, loss_fn, optimizer), starting from the
first batch of enumerate(dataloader) with an empty trace. -/
def train {P G X Y L : Type} (device : Device) (kit : TrainKit P G X Y L)
    (optimizer : Optimizer P G) (dataloader : List (Located X × Located Y))
    (model : Located P) (grad0 : G) : TrainState P G :=
  trainLoop device kit optimizer dataloader 0 { model := model, grad := grad0, events := [] }

/-- The per-batch call sequence the specification describes: move X and y
to the device, forward, loss, zero_grad, backward, step, and a printed
progress line exactly when the batch index is divisible by 100. -/
def expectedBatchTrace (modelDev device : Device) (i : ℕ) : List TrainEvent :=
  [TrainEvent.moveX i device, TrainEvent.moveY i device,
   TrainEvent.forwardCall i modelDev device,
   TrainEvent.lossCall i,
   TrainEvent.zeroGradCall i, TrainEvent.backwardCall i, TrainEvent.stepCall i] ++
  (if i % 100 = 0 then [TrainEvent.printLine i] else [])

/-- The whole expected training trace over n batches. -/
def expectedTrainTrace (modelDev device : Device) (n : ℕ) : List TrainEvent :=
  ((List.range n).map (expectedBatchTrace modelDev device)).flatten

/-! ## The test function (demo08_profiler.ipynb quickstart cells) -/

/-- The global state the quickstart cells act on: the model parameters,
the device the model was moved to at construction, the train/eval mode
flag set by model.train() and model.eval(), and the autograd recording
flag toggled by torch.no_grad(). -/
structure World where
  net : NeuralNetwork
  netDevice : Device
  training : Bool
  gradEnabled : Bool

/-- A record of one model(X) call inside test: the device of the model,
the device of the input, and whether gradient tracking was enabled. -/
structure ModelCall where
  modelDev : Device
  inputDev : Device
  gradEnabled : Bool
deriving DecidableEq

/-- A batch yielded by the test dataloader: an image tensor X and a label
tensor y, each located on a device. -/
abbrev TestBatch : Type := Located (List Tensor2) × Located (List ℕ)

/-- The state threaded through the test loop: the world plus the
test_loss and correct accumulators and the model calls made so far. -/
structure TestState where
  world : World
  testLoss : ℚ
  correct : ℚ
  calls : List ModelCall

/-- The body of the loop inside torch.no_grad(): for X, y in dataloader:
X, y = X.to(device), y.to(device); pred = model(X);
test_loss += loss_fn(pred, y).item();
correct += (pred.argmax(1) == y).type(torch.float).sum().item(). -/
def testLoop (device : Device) (lossFn : List Tensor1 → List ℕ → ℚ) :
    List TestBatch → TestState → TestState
  | [], s => s
  | (X, y) :: rest, s =>
      let X := X.to device
      let y := y.to device
      let pred := forwardBatch s.world.net X.data
      let call : ModelCall :=
        { modelDev := s.world.netDevice, inputDev := X.device,
          gradEnabled := s.world.gradEnabled }
      let batchCorrect : ℚ :=
        (((List.zip pred y.data).filter (fun p => argmaxIdx p.1 == p.2)).length : ℚ)
      testLoop device lossFn rest
        { s with
          testLoss := s.testLoss + lossFn pred y.data
          correct := s.correct + batchCorrect
          calls := s.calls ++ [call] }

/-- What test returns to the observer: the final world, the accuracy and
average loss figures it prints, and the model calls it made. -/
structure TestOutput where
  world : World
  accuracyPrinted : ℚ
  avgLossPrinted : ℚ
  calls : List ModelCall

/-- def test(dataloader, model, loss_fn): size = len(dataloader.dataset);
num_batches = len(dataloader); model.eval(); inside torch.no_grad() run the
loop; test_loss /= num_batches; correct /= size; print the accuracy as
100*correct and the average loss.  Leaving the no_grad block restores the
previous gradient flag. -/
def test (device : Device) (dataloader : List TestBatch) (w : World)
    (lossFn : List Tensor1 → List ℕ → ℚ) : TestOutput :=
  let size : ℚ := ((dataloader.map (fun b => b.1.data.length)).sum : ℕ)
  let numBatches : ℚ := (dataloader.length : ℕ)
  let w1 := { w with training := false }
  let prevGrad := w1.gradEnabled
  let w2 := { w1 with gradEnabled := false }
  let s := testLoop device lossFn dataloader
    { world := w2, testLoss := 0, correct := 0, calls := [] }
  let w3 := { s.world with gradEnabled := prevGrad }
  { world := w3
    accuracyPrinted := 100 * (s.correct / size)
    avgLossPrinted := s.testLoss / numBatches
    calls := s.calls }

/-- The labeled examples of the dataset underlying a dataloader: each
batch contributes its images paired with its labels. -/
def datasetExamples (dataloader : List TestBatch) : List (Tensor2 × ℕ) :=
  (dataloader.map (fun b => b.1.data.zip b.2.data)).flatten

/-- The number of examples whose predicted class, the argmax over the
logits, equals the label. -/
def numCorrect (net : NeuralNetwork) (dataloader : List TestBatch) : ℕ :=
  (datasetExamples dataloader).countP (fun e => argmaxIdx (net.forward e.1) == e.2)

/-- The loss value of one batch: the loss function applied to the model
prediction on the batch images and the batch labels. -/
def batchLoss (lossFn : List Tensor1 → List ℕ → ℚ) (net : NeuralNetwork)
    (b : TestBatch) : ℚ :=
  lossFn (forwardBatch net b.1.data) b.2.data

/-- The correct-prediction count of one batch, as the loop accumulates it. -/
def batchCorrectCount (net : NeuralNetwork) (b : TestBatch) : ℕ :=
  ((List.zip (forwardBatch net b.1.data) b.2.data).filter
    (fun p => argmaxIdx p.1 == p.2)).length

/-! ## Saving and loading the model (demo08_profiler.ipynb quickstart) -/

/-- A saved tensor: either a weight matrix or a bias vector. -/
inductive TensorV where
  | mat : Tensor2 → TensorV
  | vec : Tensor1 → TensorV
deriving DecidableEq

/-- model.state_dict(): an ordered dictionary from parameter names to
tensors. -/
abbrev StateDict : Type := List (String × TensorV)

/-- The state dictionary of the NeuralNetwork: its six parameters under
the names the framework derives from the module structure. -/
def NeuralNetwork.state_dict (m : NeuralNetwork) : StateDict :=
  [("linear_relu_stack.0.weight", TensorV.mat m.w0),
   ("linear_relu_stack.0.bias", TensorV.vec m.b0),
   ("linear_relu_stack.2.weight", TensorV.mat m.w2),
   ("linear_relu_stack.2.bias", TensorV.vec m.b2),
   ("linear_relu_stack.4.weight", TensorV.mat m.w4),
   ("linear_relu_stack.4.bias", TensorV.vec m.b4)]

/-- The parameter names of the NeuralNetwork, in state-dict order. -/
def modelKeys : List String :=
  ["linear_relu_stack.0.weight", "linear_relu_stack.0.bias",
   "linear_relu_stack.2.weight", "linear_relu_stack.2.bias",
   "linear_relu_stack.4.weight", "linear_relu_stack.4.bias"]

/-- The files torch.save writes: a map from path to saved state dict. -/
abbrev FileStore : Type := List (String × StateDict)

/-- Modelled from the spec: torch.save serialises the state dictionary to
the named file (the serialisation itself is framework code, absent from
the repository; it is modelled as storing the dictionary under the path). -/
def torchSave (path : String) (sd : StateDict) (fs : FileStore) : FileStore :=
  (path, sd) :: fs

/-- Modelled from the spec: torch.load reads back what torch.save wrote
under the path. -/
def torchLoad (path : String) (fs : FileStore) : Option StateDict :=
  fs.lookup path

/-- Look up a weight matrix in a state dict. -/
def lookupMat (sd : StateDict) (k : String) : Option Tensor2 :=
  match sd.lookup k with
  | some (TensorV.mat t) => some t
  | _ => none

/-- Look up a bias vector in a state dict. -/
def lookupVec (sd : StateDict) (k : String) : Option Tensor1 :=
  match sd.lookup k with
  | some (TensorV.vec t) => some t
  | _ => none

/-- What load_state_dict returns: the updated model and the
IncompatibleKeys report; "All keys matched successfully" is the case of
no missing and no unexpected keys. -/
structure LoadResult where
  model : NeuralNetwork
  missingKeys : List String
  unexpectedKeys : List String

/-- model.load_state_dict(sd): every parameter present in sd replaces the
model parameter of that name; keys of the model absent from sd are
reported missing, keys of sd that name no model parameter are reported
unexpected. -/
def NeuralNetwork.load_state_dict (m : NeuralNetwork) (sd : StateDict) : LoadResult :=
  { model :=
      { w0 := (lookupMat sd "linear_relu_stack.0.weight").getD m.w0
        b0 := (lookupVec sd "linear_relu_stack.0.bias").getD m.b0
        w2 := (lookupMat sd "linear_relu_stack.2.weight").getD m.w2
        b2 := (lookupVec sd "linear_relu_stack.2.bias").getD m.b2
        w4 := (lookupMat sd "linear_relu_stack.4.weight").getD m.w4
        b4 := (lookupVec sd "linear_relu_stack.4.bias").getD m.b4 }
    missingKeys := modelKeys.filter (fun k => (sd.lookup k).isNone)
    unexpectedKeys := (sd.map Prod.fst).filter (fun k => !(modelKeys.contains k)) }

/-! ## The recorded 5-epoch quickstart run (demo08_profiler.ipynb output) -/

/-- The test accuracies printed after each of the five epochs, in percent. -/
def recordedTestAccuracies : List ℚ :=
  [383 / 10, 554 / 10, 601 / 10, 621 / 10, 641 / 10]

/-- The average test losses printed after each of the five epochs. -/
def recordedAvgTestLosses : List ℚ :=
  [2176574 / 1000000, 1938179 / 1000000, 1569782 / 1000000,
   1284022 / 1000000, 1108237 / 1000000]

/-! ## The two Dockerfiles (src/unnamed/part_000, tail of demo04 file) -/

/-- A Dockerfile instruction, as the two build files use them. -/
inductive DockerInstr where
  | fromImage (image : String)
  | aptGet (args : String)
  | pipInstall (packages : List String)
  | copyFile (src dst : String)
  | pipInstallRequirements (path : String)
  | cmd (argv : List String)
  | expose (port : ℕ)
deriving DecidableEq

/-- The standalone Dockerfile (src/unnamed/part_000). -/
def dockerfile1 : List DockerInstr :=
  [DockerInstr.fromImage "nvcr.io/nvidia/pytorch:22.02-py3",
   DockerInstr.aptGet "update && apt-get install -y git",
   DockerInstr.pipInstall ["jupyterlab", "ipykernel", "ipywidgets"],
   DockerInstr.copyFile "requirements.txt" "/tmp/requirements.txt",
   DockerInstr.pipInstallRequirements "/tmp/requirements.txt",
   DockerInstr.cmd ["jupyter", "notebook", "--ip=0.0.0.0", "--port=8888",
                    "--allow-root", "--no-browser"],
   DockerInstr.expose 8888]

/-- The Dockerfile appended after the notebook JSON in the demo04 file;
its last line, without a trailing newline, is EXPOSE 8888. -/
def dockerfile2 : List DockerInstr :=
  [DockerInstr.fromImage "pytorch/pytorch:1.11.0-cuda11.3-cudnn8-runtime",
   DockerInstr.aptGet "update",
   DockerInstr.pipInstall ["h5py", "ipykernel>=6.0.0", "notebook", "numpy",
                           "pandas", "scipy", "seaborn"],
   DockerInstr.copyFile "requirements.txt" "/tmp/requirements.txt",
   DockerInstr.pipInstallRequirements "/tmp/requirements.txt",
   DockerInstr.cmd ["jupyter", "notebook", "--port=8888", "--no-browser",
                    "--ip=0.0.0.0", "--allow-root"],
   DockerInstr.expose 8888]

/-! ## Concrete inputs used to evaluate the theorems -/

/-- A model whose six parameter tensors are all empty. -/
def tinyNet : NeuralNetwork :=
  { w0 := [], b0 := [], w2 := [], b2 := [], w4 := [], b4 := [] }

/-- A one-batch test dataloader holding one empty image labeled 0. -/
def tinyTestLoader : List TestBatch :=
  [({ data := [([] : Tensor2)], device := Device.cpu },
    { data := [0], device := Device.cpu })]

/-- A starting world for the tiny model. -/
def tinyWorld : World :=
  { net := tinyNet, netDevice := Device.cpu, training := true, gradEnabled := true }

/-- A constant loss function. -/
def constLoss : List Tensor1 → List ℕ → ℚ := fun _ _ => 1

/-- A concrete 28-by-28 image of zeros. -/
def unitImage : Tensor2 := List.replicate 28 (List.replicate 28 0)

/-- A one-image minibatch of that image. -/
def sampleBatch : List Tensor2 := [unitImage]

/-- A model with all-zero parameters of the constructed shapes. -/
def sampleNet : NeuralNetwork :=
  { w0 := List.replicate 512 (List.replicate 784 0)
    b0 := List.replicate 512 0
    w2 := List.replicate 512 (List.replicate 512 0)
    b2 := List.replicate 512 0
    w4 := List.replicate 10 (List.replicate 512 0)
    b4 := List.replicate 10 0 }

/-! ## The recorded profiler tables (demo08_profiler.ipynb output cells) -/

/-- The column names of the printed prof.key_averages().table summary,
read off the recorded output of the CPU profiling cell. -/
def cpuProfileTableColumns : List String :=
  ["Name", "Self CPU %", "Self CPU", "CPU total %", "CPU total",
   "CPU time avg", "CPU Mem", "Self CPU Mem", "# of Calls"]

/-- The column names of the table printed with
key_averages(group_by_input_shape=True), read off the recorded output. -/
def cpuProfileTableColumnsGrouped : List String :=
  ["Name", "Self CPU %", "Self CPU", "CPU total %", "CPU total",
   "CPU time avg", "CPU Mem", "Self CPU Mem", "# of Calls", "Input Shapes"]

/-! ## Theorems -/

/-- C1: the forward pass of the NeuralNetwork applies exactly the fixed
stack of layers, in order: the input image is flattened, then passed
through the first linear layer, ReLU, the second linear layer, ReLU and
the final linear layer, whose output is returned as the logits; no other
computation is performed. -/
theorem c1_forward_is_fixed_stack (m : NeuralNetwork) (x : Tensor2) :
    m.forward x =
      linear m.w4 m.b4 (reluT (linear m.w2 m.b2
        (reluT (linear m.w0 m.b0 (flattenImage x))))) := rfl

/-- C3: saving the state dictionary to "model.pth" and loading it back
yields the saved dictionary, and loading that dictionary into a freshly
constructed NeuralNetwork reports no missing and no unexpected keys and
reproduces exactly the parameters that were saved. -/
theorem c3_save_load_round_trip (m fresh : NeuralNetwork) (fs : FileStore) :
    torchLoad "model.pth" (torchSave "model.pth" m.state_dict fs) = some m.state_dict ∧
    (fresh.load_state_dict m.state_dict).model = m ∧
    (fresh.load_state_dict m.state_dict).missingKeys = [] ∧
    (fresh.load_state_dict m.state_dict).unexpectedKeys = [] :=
  ⟨rfl, rfl, rfl, rfl⟩

/-- C5: over the recorded 5-epoch quickstart run, the printed test
accuracy strictly increases epoch over epoch and the printed average test
loss strictly decreases epoch over epoch. -/
theorem c5_recorded_run_monotone :
    List.Chain' (· < ·) recordedTestAccuracies ∧
    List.Chain' (· > ·) recordedAvgTestLosses ∧
    recordedTestAccuracies.length = 5 ∧ recordedAvgTestLosses.length = 5 := by
  refine ⟨?_, ?_, rfl, rfl⟩ <;>
    norm_num [recordedTestAccuracies, recordedAvgTestLosses, List.chain'_cons]

/-- C6: each of the two Dockerfiles starts from a PyTorch base image,
installs Jupyter packages via pip, installs the requirements.txt
dependencies, and has a CMD that launches a Jupyter notebook server on
port 8888 bound to 0.0.0.0 with root allowed and no browser, with port
8888 EXPOSEd in both. -/
theorem c6_dockerfiles :
    dockerfile1.head? = some (DockerInstr.fromImage "nvcr.io/nvidia/pytorch:22.02-py3") ∧
    dockerfile2.head? =
      some (DockerInstr.fromImage "pytorch/pytorch:1.11.0-cuda11.3-cudnn8-runtime") ∧
    DockerInstr.pipInstall ["jupyterlab", "ipykernel", "ipywidgets"] ∈ dockerfile1 ∧
    DockerInstr.pipInstall ["h5py", "ipykernel>=6.0.0", "notebook", "numpy",
      "pandas", "scipy", "seaborn"] ∈ dockerfile2 ∧
    DockerInstr.pipInstallRequirements "/tmp/requirements.txt" ∈ dockerfile1 ∧
    DockerInstr.pipInstallRequirements "/tmp/requirements.txt" ∈ dockerfile2 ∧
    DockerInstr.cmd ["jupyter", "notebook", "--ip=0.0.0.0", "--port=8888",
      "--allow-root", "--no-browser"] ∈ dockerfile1 ∧
    DockerInstr.cmd ["jupyter", "notebook", "--port=8888", "--no-browser",
      "--ip=0.0.0.0", "--allow-root"] ∈ dockerfile2 ∧
    DockerInstr.expose 8888 ∈ dockerfile1 ∧
    DockerInstr.expose 8888 ∈ dockerfile2 := by
  decide

/-- Helper: the training loop starting at batch index k appends exactly
the expected per-batch traces for indices k, k+1, ... to the accumulated
events, with the model staying on its device throughout. -/
theorem trainLoop_events {P G X Y L : Type} (device : Device) (kit : TrainKit P G X Y L)
    (optimizer : Optimizer P G) :
    ∀ (dl : List (Located X × Located Y)) (k : ℕ) (s : TrainState P G),
      (trainLoop device kit optimizer dl k s).events =
        s.events ++
          ((List.range' k dl.length).map (expectedBatchTrace s.model.device device)).flatten
  | [], _, s => by simp [trainLoop]
  | (X, y) :: rest, k, s => by
      rw [show ((X, y) :: rest).length = rest.length + 1 from rfl, List.range'_succ]
      simp only [trainLoop, List.map_cons, List.flatten_cons]
      rw [trainLoop_events device kit optimizer rest (k + 1)]
      simp [expectedBatchTrace, Located.to, List.append_assoc]

/-- Helper: a progress print occurs in the expected per-batch trace of
batch j exactly for the printed index j when j is divisible by 100. -/
theorem printLine_mem_expectedBatchTrace (md dv : Device) (i j : ℕ) :
    TrainEvent.printLine i ∈ expectedBatchTrace md dv j ↔ i = j ∧ j % 100 = 0 := by
  by_cases h : j % 100 = 0 <;> simp [expectedBatchTrace, h]

/-- Helper: the forward calls in the expected per-batch trace of batch j
carry exactly the devices of the model and of the moved input. -/
theorem forwardCall_mem_expectedBatchTrace (md dv md2 xd : Device) (i j : ℕ) :
    TrainEvent.forwardCall i md2 xd ∈ expectedBatchTrace md dv j ↔
      i = j ∧ md2 = md ∧ xd = dv := by
  by_cases h : j % 100 = 0 <;> simp [expectedBatchTrace, h]

/-- C2: for every dataloader, the train function performs, for each batch
in order, exactly the sequence: move X to the device, move y to the
device, forward pass, loss computation, optimizer.zero_grad(),
loss.backward(), optimizer.step(); and a loss/progress line is printed
exactly for the batches whose enumerate index is divisible by 100. -/
theorem c2_train_trace {P G X Y L : Type} (device : Device) (kit : TrainKit P G X Y L)
    (optimizer : Optimizer P G) (dataloader : List (Located X × Located Y))
    (model : Located P) (grad0 : G) :
    (train device kit optimizer dataloader model grad0).events =
      expectedTrainTrace model.device device dataloader.length ∧
    ∀ i : ℕ,
      TrainEvent.printLine i ∈ (train device kit optimizer dataloader model grad0).events ↔
        i < dataloader.length ∧ i % 100 = 0 := by
  have h : (train device kit optimizer dataloader model grad0).events =
      expectedTrainTrace model.device device dataloader.length := by
    simp [train, trainLoop_events, expectedTrainTrace, List.range_eq_range']
  refine ⟨h, fun i => ?_⟩
  rw [h]
  simp only [expectedTrainTrace, List.mem_flatten, List.mem_map, List.mem_range]
  constructor
  · rintro ⟨l, ⟨j, hj, rfl⟩, hmem⟩
    obtain ⟨rfl, h100⟩ := (printLine_mem_expectedBatchTrace _ _ _ _).mp hmem
    exact ⟨hj, h100⟩
  · rintro ⟨hi, h100⟩
    exact ⟨expectedBatchTrace model.device device i, ⟨i, hi, rfl⟩,
      (printLine_mem_expectedBatchTrace _ _ _ _).mpr ⟨rfl, h100⟩⟩

/-- Helper: the test loop leaves the world unchanged, accumulates the
per-batch losses and correct counts, and records one model call per
batch, made on the device of the loop with the gradient flag of the
world. -/
theorem testLoop_eq (device : Device) (lossFn : List Tensor1 → List ℕ → ℚ) :
    ∀ (dl : List TestBatch) (s : TestState),
      testLoop device lossFn dl s =
        { world := s.world
          testLoss := s.testLoss + (dl.map (batchLoss lossFn s.world.net)).sum
          correct := s.correct +
            (dl.map (fun b => ((batchCorrectCount s.world.net b : ℕ) : ℚ))).sum
          calls := s.calls ++ dl.map (fun _ =>
            { modelDev := s.world.netDevice, inputDev := device,
              gradEnabled := s.world.gradEnabled }) }
  | [], s => by simp [testLoop]
  | (X, y) :: rest, s => by
      simp only [testLoop]
      rw [testLoop_eq device lossFn rest]
      simp [batchLoss, batchCorrectCount, Located.to, add_assoc, List.append_assoc]

/-- C10: the test function never modifies the model parameters: after
test returns, the network in the world is exactly the network it was
given; evaluation only reads the parameters, under torch.no_grad(), and
invokes no optimizer. -/
theorem c10_test_never_modifies_parameters (device : Device) (dataloader : List TestBatch)
    (w : World) (lossFn : List Tensor1 → List ℕ → ℚ) :
    (test device dataloader w lossFn).world.net = w.net := by
  simp [test, testLoop_eq]

/-- C8: the notebooks pick "cuda" exactly when CUDA is available and
"cpu" otherwise, and with the model moved to that device at construction
and each X and y moved to the same device inside the loops, every model
forward call in train and in test sees the model and the input on that
same selected device. -/
theorem c8_device_placement {P G X Y L : Type} (cudaAvailable : Bool)
    (kit : TrainKit P G X Y L) (optimizer : Optimizer P G)
    (dataloader : List (Located X × Located Y)) (model : Located P) (grad0 : G)
    (testLoader : List TestBatch) (w : World) (lossFn : List Tensor1 → List ℕ → ℚ) :
    (selectDevice cudaAvailable = Device.cuda ↔ cudaAvailable = true) ∧
    (∀ i md xd,
      TrainEvent.forwardCall i md xd ∈
        (train (selectDevice cudaAvailable) kit optimizer dataloader
          (model.to (selectDevice cudaAvailable)) grad0).events →
      md = selectDevice cudaAvailable ∧ xd = selectDevice cudaAvailable) ∧
    (∀ c ∈ (test (selectDevice cudaAvailable) testLoader
        { w with netDevice := selectDevice cudaAvailable } lossFn).calls,
      c.modelDev = selectDevice cudaAvailable ∧ c.inputDev = selectDevice cudaAvailable) := by
  refine ⟨?_, ?_, ?_⟩
  · cases cudaAvailable <;> simp [selectDevice]
  · intro i md xd hmem
    rw [train, trainLoop_events] at hmem
    simp only [List.nil_append, List.mem_flatten, List.mem_map] at hmem
    obtain ⟨l, ⟨j, _, rfl⟩, hmem⟩ := hmem
    have h := (forwardCall_mem_expectedBatchTrace _ _ _ _ _ _).mp hmem
    exact ⟨h.2.1, h.2.2⟩
  · intro c hc
    have hcalls : (test (selectDevice cudaAvailable) testLoader
        { w with netDevice := selectDevice cudaAvailable } lossFn).calls =
        testLoader.map (fun _ =>
          { modelDev := selectDevice cudaAvailable,
            inputDev := selectDevice cudaAvailable, gradEnabled := false }) := by
      simp [test, testLoop_eq]
    rw [hcalls] at hc
    simp only [List.mem_map] at hc
    obtain ⟨b, _, rfl⟩ := hc
    exact ⟨rfl, rfl⟩

/-- Helper: under batches whose image and label tensors agree in length,
the dataset size used by test equals the number of labeled examples. -/
theorem length_datasetExamples (dl : List TestBatch)
    (hlen : ∀ b ∈ dl, b.1.data.length = b.2.data.length) :
    (datasetExamples dl).length = (dl.map (fun b => b.1.data.length)).sum := by
  induction dl with
  | nil => simp [datasetExamples]
  | cons b rest ih =>
      have hb := hlen b (by simp)
      have ih2 := ih (fun x hx => hlen x (by simp [hx]))
      simp only [datasetExamples, List.map_cons, List.flatten_cons, List.length_append,
        List.length_zip, List.sum_cons, hb, min_self] at ih2 ⊢
      omega

/-- Helper: the per-batch correct counts accumulated by the test loop sum
to the number of examples of the whole dataset whose argmax prediction
equals the label. -/
theorem sum_batchCorrectCount (net : NeuralNetwork) (dl : List TestBatch) :
    (dl.map (fun b => batchCorrectCount net b)).sum = numCorrect net dl := by
  unfold numCorrect datasetExamples
  rw [List.countP_flatten, List.map_map]
  refine congrArg List.sum (List.map_congr_left fun b _ => ?_)
  show batchCorrectCount net b = _
  rw [batchCorrectCount, ← List.countP_eq_length_filter, forwardBatch,
    List.zip_map_left, List.countP_map]
  rfl

/-- C4: for every dataloader, test prints an accuracy of 100 times the
number of examples whose argmax prediction equals the label divided by
the dataset size, and an average loss equal to the sum of the per-batch
losses divided by the number of batches; the model is evaluated once per
batch with gradient tracking disabled. -/
theorem c4_test_accuracy_and_avg_loss (device : Device) (dataloader : List TestBatch)
    (w : World) (lossFn : List Tensor1 → List ℕ → ℚ)
    (hlen : ∀ b ∈ dataloader, b.1.data.length = b.2.data.length) :
    (test device dataloader w lossFn).accuracyPrinted =
      100 * ((numCorrect w.net dataloader : ℚ) /
        ((datasetExamples dataloader).length : ℚ)) ∧
    (test device dataloader w lossFn).avgLossPrinted =
      (dataloader.map (batchLoss lossFn w.net)).sum / (dataloader.length : ℚ) ∧
    (test device dataloader w lossFn).calls.length = dataloader.length ∧
    ∀ c ∈ (test device dataloader w lossFn).calls, c.gradEnabled = false := by
  refine ⟨?_, ?_, ?_, ?_⟩
  · rw [length_datasetExamples dataloader hlen, ← sum_batchCorrectCount w.net dataloader]
    simp [test, testLoop_eq, Function.comp_def]
  · simp [test, testLoop_eq]
  · simp [test, testLoop_eq]
  · intro c hc
    have hcalls : (test device dataloader w lossFn).calls =
        dataloader.map (fun _ =>
          { modelDev := w.netDevice, inputDev := device, gradEnabled := false }) := by
      simp [test, testLoop_eq]
    rw [hcalls] at hc
    simp only [List.mem_map] at hc
    obtain ⟨b, _, rfl⟩ := hc
    rfl

/-- C4 witness: the hypotheses and conclusion of the test theorem hold at
a concrete one-batch dataloader with the tiny model. -/
theorem c4_witness :
    (∀ b ∈ tinyTestLoader, b.1.data.length = b.2.data.length) ∧
    ((test Device.cpu tinyTestLoader tinyWorld constLoss).accuracyPrinted =
      100 * ((numCorrect tinyWorld.net tinyTestLoader : ℚ) /
        ((datasetExamples tinyTestLoader).length : ℚ)) ∧
    (test Device.cpu tinyTestLoader tinyWorld constLoss).avgLossPrinted =
      (tinyTestLoader.map (batchLoss constLoss tinyWorld.net)).sum /
        (tinyTestLoader.length : ℚ) ∧
    (test Device.cpu tinyTestLoader tinyWorld constLoss).calls.length =
      tinyTestLoader.length ∧
    ∀ c ∈ (test Device.cpu tinyTestLoader tinyWorld constLoss).calls,
      c.gradEnabled = false) := by
  have h : ∀ b ∈ tinyTestLoader, b.1.data.length = b.2.data.length := by decide
  exact ⟨h, c4_test_accuracy_and_avg_loss Device.cpu tinyTestLoader tinyWorld constLoss h⟩

/-- C9: flattening a minibatch of 28-by-28 images preserves the batch
dimension and yields 784 values per image; the forward pass returns 10
logits per image; and Softmax over a row of logits yields values in the
unit interval that sum to 1. -/
theorem c9_shapes_and_softmax (batch : List Tensor2) (m : NeuralNetwork)
    (himg : ∀ img ∈ batch, img.length = 28 ∧ ∀ row ∈ img, row.length = 28)
    (hm : m.WellFormed) :
    (flattenBatch batch).length = batch.length ∧
    (∀ v ∈ flattenBatch batch, v.length = 784) ∧
    (forwardBatch m batch).length = batch.length ∧
    (∀ v ∈ forwardBatch m batch, v.length = 10) ∧
    (∀ row : List ℝ, row ≠ [] →
      (∀ p ∈ softmaxRow row, 0 ≤ p ∧ p ≤ 1) ∧ (softmaxRow row).sum = 1) := by
  refine ⟨by simp [flattenBatch], ?_, by simp [forwardBatch], ?_, ?_⟩
  · intro v hv
    simp only [flattenBatch, List.mem_map] at hv
    obtain ⟨img, hmem, rfl⟩ := hv
    obtain ⟨h1, h2⟩ := himg img hmem
    have hrows : img.map List.length = List.replicate 28 28 := by
      rw [List.eq_replicate_iff]
      exact ⟨by simp [h1], by simpa using h2⟩
    simp [flattenImage, List.length_flatten, hrows]
  · intro v hv
    simp only [forwardBatch, List.mem_map] at hv
    obtain ⟨x, _, rfl⟩ := hv
    obtain ⟨hw4, -, hb4⟩ := hm.2.2
    show (linear m.w4 m.b4 _).length = 10
    simp [linear, List.length_zipWith, hw4, hb4]
  · intro row hrow
    have hne : row.map Real.exp ≠ [] := by simpa using hrow
    have hS : 0 < (row.map Real.exp).sum := by
      refine List.sum_pos _ (fun x hx => ?_) hne
      obtain ⟨v, _, rfl⟩ := List.mem_map.mp hx
      exact Real.exp_pos v
    constructor
    · intro p hp
      simp only [softmaxRow, List.mem_map] at hp
      obtain ⟨v, hv, rfl⟩ := hp
      refine ⟨div_nonneg (Real.exp_pos v).le hS.le, ?_⟩
      rw [div_le_one hS]
      refine List.single_le_sum (fun x hx => ?_) _ (List.mem_map_of_mem Real.exp hv)
      obtain ⟨u, _, rfl⟩ := List.mem_map.mp hx
      exact (Real.exp_pos u).le
    · simp only [softmaxRow, div_eq_mul_inv]
      rw [List.sum_map_mul_right]
      exact mul_inv_cancel₀ hS.ne'

set_option maxRecDepth 10000 in
/-- C9 witness: the hypotheses and conclusion of the shape theorem hold
at a concrete one-image batch of zeros and the all-zero model of the
constructed shapes. -/
theorem c9_witness :
    (∀ img ∈ sampleBatch, img.length = 28 ∧ ∀ row ∈ img, row.length = 28) ∧
    sampleNet.WellFormed ∧
    ((flattenBatch sampleBatch).length = sampleBatch.length ∧
    (∀ v ∈ flattenBatch sampleBatch, v.length = 784) ∧
    (forwardBatch sampleNet sampleBatch).length = sampleBatch.length ∧
    (∀ v ∈ forwardBatch sampleNet sampleBatch, v.length = 10) ∧
    (∀ row : List ℝ, row ≠ [] →
      (∀ p ∈ softmaxRow row, 0 ≤ p ∧ p ≤ 1) ∧ (softmaxRow row).sum = 1)) := by
  have h1 : ∀ img ∈ sampleBatch, img.length = 28 ∧ ∀ row ∈ img, row.length = 28 := by
    intro img hmem
    simp only [sampleBatch, List.mem_singleton] at hmem
    subst hmem
    refine ⟨by simp [unitImage], fun row hrow => ?_⟩
    rw [unitImage] at hrow
    rw [List.eq_of_mem_replicate hrow]
    simp
  have hrow0 : ∀ row ∈ sampleNet.w0, row.length = 28 * 28 := by
    intro row hrow
    simp only [sampleNet] at hrow
    rw [List.eq_of_mem_replicate hrow]
    simp
  have hrow2 : ∀ row ∈ sampleNet.w2, row.length = 512 := by
    intro row hrow
    simp only [sampleNet] at hrow
    rw [List.eq_of_mem_replicate hrow]
    simp
  have hrow4 : ∀ row ∈ sampleNet.w4, row.length = 512 := by
    intro row hrow
    simp only [sampleNet] at hrow
    rw [List.eq_of_mem_replicate hrow]
    simp
  have h2 : sampleNet.WellFormed :=
    ⟨⟨by simp [sampleNet], hrow0, by simp [sampleNet]⟩,
     ⟨by simp [sampleNet], hrow2, by simp [sampleNet]⟩,
     ⟨by simp [sampleNet], hrow4, by simp [sampleNet]⟩⟩
  exact ⟨h1, h2, c9_shapes_and_softmax sampleBatch sampleNet h1 h2⟩

/-- C7: the recorded CPU profiling summary table has exactly the columns
Name, Self CPU %, Self CPU, CPU total %, CPU total, CPU time avg, CPU Mem,
Self CPU Mem and number of Calls, and the table grouped by input shape has
exactly those columns followed by Input Shapes. -/
theorem c7_profiler_table_columns :
    cpuProfileTableColumns =
      ["Name", "Self CPU %", "Self CPU", "CPU total %", "CPU total",
       "CPU time avg", "CPU Mem", "Self CPU Mem", "# of Calls"] ∧
    cpuProfileTableColumnsGrouped = cpuProfileTableColumns ++ ["Input Shapes"] :=
  ⟨rfl, rfl⟩

end JupyterPytorchDev
